import Mathlib

/-!
Verification development for the cube recognition / move-engine repository.

Part 1 embeds the move transform engine of `src/animations.js`
(`parseMove`, `applyMoveToCubeState`, the six `rotate*Face` functions and
`rotate2DArray`).  A cube state is six faces, each an object with a
`colors` field holding a 3x3 array of color-name strings; we model the
arrays as `List (List String)`.  JavaScript array reads out of range give
`undefined`; on well-formed (3x3) states no out-of-range access happens,
and the model's fallback constant is never produced.

Part 2 embeds the grid-consistency corrector and the alignment scoring of
`src/components/CubeRecognition.js`, and part 3 the color classification
pipeline.  JavaScript numbers are modelled as exact rationals where the
source only uses field operations, and as real numbers where the source
uses `Math.pow`/`Math.sqrt`.
-/

/-! ## Part 1: the move transform engine (src/animations.js) -/

/-- Read `g[i][j]`; the fallback string stands for JavaScript `undefined`
and is never hit on 3x3 grids with indices in range. -/
def getCell (g : List (List String)) (i j : Nat) : String :=
  (g.getD i []).getD j "undefined"

/-- Write `g[i][j] = x`.  `List.set` leaves the list unchanged when the
index is out of range; on well-formed grids all writes are in range. -/
def setCell (g : List (List String)) (i j : Nat) (x : String) : List (List String) :=
  g.set i ((g.getD i []).set j x)

/-- `rotate2DArray` of src/animations.js lines 538-557.  The source builds
an `n` by `n` array and assigns `rotated[j][n-1-i] = array[i][j]`
(clockwise) or `rotated[n-1-j][i] = array[i][j]` (counter-clockwise);
reading off entry `(p, q)` of the result this is `array[n-1-q][p]`
respectively `array[q][n-1-p]`. -/
def rotate2DArray (a : List (List String)) (clockwise : Bool) : List (List String) :=
  let n := a.length
  (List.range n).map (fun p => (List.range n).map (fun q =>
    if clockwise then getCell a (n - 1 - q) p else getCell a q (n - 1 - p)))

/-- One face of the cube state: an object with a `colors` 3x3 array. -/
structure FaceData where
  colors : List (List String)
deriving DecidableEq, Repr

/-- The six-face cube state handled by `applyMoveToCubeState`. -/
structure CubeState where
  front : FaceData
  back : FaceData
  up : FaceData
  down : FaceData
  left : FaceData
  right : FaceData
deriving DecidableEq, Repr

/-- `rotateFrontFace` (lines 158-220).  In the source every edge
assignment reads a cell that has not yet been written in the same call
(the overwritten top edge is saved in `topEdge` first), so all right-hand
sides below read from the state `s1` obtained after rotating the front
face itself. -/
def rotateFrontFace (s : CubeState) (clockwise : Bool) : CubeState :=
  let s1 : CubeState := { s with front := ⟨rotate2DArray s.front.colors clockwise⟩ }
  if clockwise then
    let up1 := setCell (setCell (setCell s1.up.colors 2 0 (getCell s1.left.colors 0 2)) 2 1
      (getCell s1.left.colors 1 2)) 2 2 (getCell s1.left.colors 2 2)
    let left1 := setCell (setCell (setCell s1.left.colors 0 2 (getCell s1.down.colors 0 2)) 1 2
      (getCell s1.down.colors 0 1)) 2 2 (getCell s1.down.colors 0 0)
    let down1 := setCell (setCell (setCell s1.down.colors 0 0 (getCell s1.right.colors 2 0)) 0 1
      (getCell s1.right.colors 1 0)) 0 2 (getCell s1.right.colors 0 0)
    let right1 := setCell (setCell (setCell s1.right.colors 0 0 (getCell s1.up.colors 2 0)) 1 0
      (getCell s1.up.colors 2 1)) 2 0 (getCell s1.up.colors 2 2)
    { s1 with up := ⟨up1⟩, left := ⟨left1⟩, down := ⟨down1⟩, right := ⟨right1⟩ }
  else
    let up1 := setCell (setCell (setCell s1.up.colors 2 0 (getCell s1.right.colors 0 0)) 2 1
      (getCell s1.right.colors 1 0)) 2 2 (getCell s1.right.colors 2 0)
    let right1 := setCell (setCell (setCell s1.right.colors 0 0 (getCell s1.down.colors 0 2)) 1 0
      (getCell s1.down.colors 0 1)) 2 0 (getCell s1.down.colors 0 0)
    let down1 := setCell (setCell (setCell s1.down.colors 0 0 (getCell s1.left.colors 2 2)) 0 1
      (getCell s1.left.colors 1 2)) 0 2 (getCell s1.left.colors 0 2)
    let left1 := setCell (setCell (setCell s1.left.colors 0 2 (getCell s1.up.colors 2 0)) 1 2
      (getCell s1.up.colors 2 1)) 2 2 (getCell s1.up.colors 2 2)
    { s1 with up := ⟨up1⟩, right := ⟨right1⟩, down := ⟨down1⟩, left := ⟨left1⟩ }

/-- `rotateBackFace` (lines 222-283). -/
def rotateBackFace (s : CubeState) (clockwise : Bool) : CubeState :=
  let s1 : CubeState := { s with back := ⟨rotate2DArray s.back.colors clockwise⟩ }
  if clockwise then
    let up1 := setCell (setCell (setCell s1.up.colors 0 0 (getCell s1.right.colors 0 2)) 0 1
      (getCell s1.right.colors 1 2)) 0 2 (getCell s1.right.colors 2 2)
    let right1 := setCell (setCell (setCell s1.right.colors 0 2 (getCell s1.down.colors 2 2)) 1 2
      (getCell s1.down.colors 2 1)) 2 2 (getCell s1.down.colors 2 0)
    let down1 := setCell (setCell (setCell s1.down.colors 2 0 (getCell s1.left.colors 2 0)) 2 1
      (getCell s1.left.colors 1 0)) 2 2 (getCell s1.left.colors 0 0)
    let left1 := setCell (setCell (setCell s1.left.colors 0 0 (getCell s1.up.colors 0 2)) 1 0
      (getCell s1.up.colors 0 1)) 2 0 (getCell s1.up.colors 0 0)
    { s1 with up := ⟨up1⟩, right := ⟨right1⟩, down := ⟨down1⟩, left := ⟨left1⟩ }
  else
    let up1 := setCell (setCell (setCell s1.up.colors 0 0 (getCell s1.left.colors 2 0)) 0 1
      (getCell s1.left.colors 1 0)) 0 2 (getCell s1.left.colors 0 0)
    let left1 := setCell (setCell (setCell s1.left.colors 0 0 (getCell s1.down.colors 2 0)) 1 0
      (getCell s1.down.colors 2 1)) 2 0 (getCell s1.down.colors 2 2)
    let down1 := setCell (setCell (setCell s1.down.colors 2 0 (getCell s1.right.colors 2 2)) 2 1
      (getCell s1.right.colors 1 2)) 2 2 (getCell s1.right.colors 0 2)
    let right1 := setCell (setCell (setCell s1.right.colors 0 2 (getCell s1.up.colors 0 0)) 1 2
      (getCell s1.up.colors 0 1)) 2 2 (getCell s1.up.colors 0 2)
    { s1 with up := ⟨up1⟩, left := ⟨left1⟩, down := ⟨down1⟩, right := ⟨right1⟩ }

/-- `rotateRightFace` (lines 286-346). -/
def rotateRightFace (s : CubeState) (clockwise : Bool) : CubeState :=
  let s1 : CubeState := { s with right := ⟨rotate2DArray s.right.colors clockwise⟩ }
  if clockwise then
    let up1 := setCell (setCell (setCell s1.up.colors 0 2 (getCell s1.front.colors 0 2)) 1 2
      (getCell s1.front.colors 1 2)) 2 2 (getCell s1.front.colors 2 2)
    let front1 := setCell (setCell (setCell s1.front.colors 0 2 (getCell s1.down.colors 0 2)) 1 2
      (getCell s1.down.colors 1 2)) 2 2 (getCell s1.down.colors 2 2)
    let down1 := setCell (setCell (setCell s1.down.colors 0 2 (getCell s1.back.colors 2 0)) 1 2
      (getCell s1.back.colors 1 0)) 2 2 (getCell s1.back.colors 0 0)
    let back1 := setCell (setCell (setCell s1.back.colors 0 0 (getCell s1.up.colors 2 2)) 1 0
      (getCell s1.up.colors 1 2)) 2 0 (getCell s1.up.colors 0 2)
    { s1 with up := ⟨up1⟩, front := ⟨front1⟩, down := ⟨down1⟩, back := ⟨back1⟩ }
  else
    let up1 := setCell (setCell (setCell s1.up.colors 0 2 (getCell s1.back.colors 2 0)) 1 2
      (getCell s1.back.colors 1 0)) 2 2 (getCell s1.back.colors 0 0)
    let back1 := setCell (setCell (setCell s1.back.colors 0 0 (getCell s1.down.colors 2 2)) 1 0
      (getCell s1.down.colors 1 2)) 2 0 (getCell s1.down.colors 0 2)
    let down1 := setCell (setCell (setCell s1.down.colors 0 2 (getCell s1.front.colors 0 2)) 1 2
      (getCell s1.front.colors 1 2)) 2 2 (getCell s1.front.colors 2 2)
    let front1 := setCell (setCell (setCell s1.front.colors 0 2 (getCell s1.up.colors 0 2)) 1 2
      (getCell s1.up.colors 1 2)) 2 2 (getCell s1.up.colors 2 2)
    { s1 with up := ⟨up1⟩, back := ⟨back1⟩, down := ⟨down1⟩, front := ⟨front1⟩ }

/-- `rotateLeftFace` (lines 348-409). -/
def rotateLeftFace (s : CubeState) (clockwise : Bool) : CubeState :=
  let s1 : CubeState := { s with left := ⟨rotate2DArray s.left.colors clockwise⟩ }
  if clockwise then
    let up1 := setCell (setCell (setCell s1.up.colors 0 0 (getCell s1.back.colors 2 2)) 1 0
      (getCell s1.back.colors 1 2)) 2 0 (getCell s1.back.colors 0 2)
    let back1 := setCell (setCell (setCell s1.back.colors 0 2 (getCell s1.down.colors 2 0)) 1 2
      (getCell s1.down.colors 1 0)) 2 2 (getCell s1.down.colors 0 0)
    let down1 := setCell (setCell (setCell s1.down.colors 0 0 (getCell s1.front.colors 0 0)) 1 0
      (getCell s1.front.colors 1 0)) 2 0 (getCell s1.front.colors 2 0)
    let front1 := setCell (setCell (setCell s1.front.colors 0 0 (getCell s1.up.colors 0 0)) 1 0
      (getCell s1.up.colors 1 0)) 2 0 (getCell s1.up.colors 2 0)
    { s1 with up := ⟨up1⟩, back := ⟨back1⟩, down := ⟨down1⟩, front := ⟨front1⟩ }
  else
    let up1 := setCell (setCell (setCell s1.up.colors 0 0 (getCell s1.front.colors 0 0)) 1 0
      (getCell s1.front.colors 1 0)) 2 0 (getCell s1.front.colors 2 0)
    let front1 := setCell (setCell (setCell s1.front.colors 0 0 (getCell s1.down.colors 0 0)) 1 0
      (getCell s1.down.colors 1 0)) 2 0 (getCell s1.down.colors 2 0)
    let down1 := setCell (setCell (setCell s1.down.colors 0 0 (getCell s1.back.colors 2 2)) 1 0
      (getCell s1.back.colors 1 2)) 2 0 (getCell s1.back.colors 0 2)
    let back1 := setCell (setCell (setCell s1.back.colors 0 2 (getCell s1.up.colors 2 0)) 1 2
      (getCell s1.up.colors 1 0)) 2 2 (getCell s1.up.colors 0 0)
    { s1 with up := ⟨up1⟩, front := ⟨front1⟩, down := ⟨down1⟩, back := ⟨back1⟩ }

/-- `rotateUpFace` (lines 412-472). -/
def rotateUpFace (s : CubeState) (clockwise : Bool) : CubeState :=
  let s1 : CubeState := { s with up := ⟨rotate2DArray s.up.colors clockwise⟩ }
  if clockwise then
    let front1 := setCell (setCell (setCell s1.front.colors 0 0 (getCell s1.left.colors 0 0)) 0 1
      (getCell s1.left.colors 0 1)) 0 2 (getCell s1.left.colors 0 2)
    let left1 := setCell (setCell (setCell s1.left.colors 0 0 (getCell s1.back.colors 0 0)) 0 1
      (getCell s1.back.colors 0 1)) 0 2 (getCell s1.back.colors 0 2)
    let back1 := setCell (setCell (setCell s1.back.colors 0 0 (getCell s1.right.colors 0 0)) 0 1
      (getCell s1.right.colors 0 1)) 0 2 (getCell s1.right.colors 0 2)
    let right1 := setCell (setCell (setCell s1.right.colors 0 0 (getCell s1.front.colors 0 0)) 0 1
      (getCell s1.front.colors 0 1)) 0 2 (getCell s1.front.colors 0 2)
    { s1 with front := ⟨front1⟩, left := ⟨left1⟩, back := ⟨back1⟩, right := ⟨right1⟩ }
  else
    let front1 := setCell (setCell (setCell s1.front.colors 0 0 (getCell s1.right.colors 0 0)) 0 1
      (getCell s1.right.colors 0 1)) 0 2 (getCell s1.right.colors 0 2)
    let right1 := setCell (setCell (setCell s1.right.colors 0 0 (getCell s1.back.colors 0 0)) 0 1
      (getCell s1.back.colors 0 1)) 0 2 (getCell s1.back.colors 0 2)
    let back1 := setCell (setCell (setCell s1.back.colors 0 0 (getCell s1.left.colors 0 0)) 0 1
      (getCell s1.left.colors 0 1)) 0 2 (getCell s1.left.colors 0 2)
    let left1 := setCell (setCell (setCell s1.left.colors 0 0 (getCell s1.front.colors 0 0)) 0 1
      (getCell s1.front.colors 0 1)) 0 2 (getCell s1.front.colors 0 2)
    { s1 with front := ⟨front1⟩, right := ⟨right1⟩, back := ⟨back1⟩, left := ⟨left1⟩ }

/-- `rotateDownFace` (lines 474-535). -/
def rotateDownFace (s : CubeState) (clockwise : Bool) : CubeState :=
  let s1 : CubeState := { s with down := ⟨rotate2DArray s.down.colors clockwise⟩ }
  if clockwise then
    let front1 := setCell (setCell (setCell s1.front.colors 2 0 (getCell s1.right.colors 2 0)) 2 1
      (getCell s1.right.colors 2 1)) 2 2 (getCell s1.right.colors 2 2)
    let right1 := setCell (setCell (setCell s1.right.colors 2 0 (getCell s1.back.colors 2 0)) 2 1
      (getCell s1.back.colors 2 1)) 2 2 (getCell s1.back.colors 2 2)
    let back1 := setCell (setCell (setCell s1.back.colors 2 0 (getCell s1.left.colors 2 0)) 2 1
      (getCell s1.left.colors 2 1)) 2 2 (getCell s1.left.colors 2 2)
    let left1 := setCell (setCell (setCell s1.left.colors 2 0 (getCell s1.front.colors 2 0)) 2 1
      (getCell s1.front.colors 2 1)) 2 2 (getCell s1.front.colors 2 2)
    { s1 with front := ⟨front1⟩, right := ⟨right1⟩, back := ⟨back1⟩, left := ⟨left1⟩ }
  else
    let front1 := setCell (setCell (setCell s1.front.colors 2 0 (getCell s1.left.colors 2 0)) 2 1
      (getCell s1.left.colors 2 1)) 2 2 (getCell s1.left.colors 2 2)
    let left1 := setCell (setCell (setCell s1.left.colors 2 0 (getCell s1.back.colors 2 0)) 2 1
      (getCell s1.back.colors 2 1)) 2 2 (getCell s1.back.colors 2 2)
    let back1 := setCell (setCell (setCell s1.back.colors 2 0 (getCell s1.right.colors 2 0)) 2 1
      (getCell s1.right.colors 2 1)) 2 2 (getCell s1.right.colors 2 2)
    let right1 := setCell (setCell (setCell s1.right.colors 2 0 (getCell s1.front.colors 2 0)) 2 1
      (getCell s1.front.colors 2 1)) 2 2 (getCell s1.front.colors 2 2)
    { s1 with front := ⟨front1⟩, left := ⟨left1⟩, back := ⟨back1⟩, right := ⟨right1⟩ }

/-- Result of `parseMove` (lines 107-123): the face letter, the rotation
direction, and the parsed angle.  The source stores the angle in radians
(`Math.PI / 2`, `-Math.PI / 2`, `Math.PI`); we record the coefficient of
pi as an exact rational. -/
structure ParsedMove where
  face : Char
  clockwise : Bool
  angleOverPi : ℚ
deriving DecidableEq, Repr

/-- `parseMove` (lines 107-123): `move.charAt(0)` is the face, the rest of
the string selects direction and angle.  `Char.ofNat 39` is the ASCII
apostrophe used by counter-clockwise notation. -/
def parseMove (move : String) : ParsedMove :=
  let face := move.toList.headD (Char.ofNat 32)
  let modifier := move.drop 1
  if modifier = String.mk [Char.ofNat 39] then ⟨face, false, -(1/2)⟩
  else if modifier = "2" then ⟨face, true, 1⟩
  else ⟨face, true, 1/2⟩

/-- `applyMoveToCubeState` (lines 126-155): deep-copies the state, then
dispatches on the face letter using only the `clockwise` flag of the
parsed move; the parsed `angle` is never consulted, and a face letter
outside F/B/R/L/U/D falls through the switch, returning the copy
unchanged.  A deep copy of an immutable value is the value itself. -/
def applyMoveToCubeState (s : CubeState) (move : String) : CubeState :=
  let p := parseMove move
  if p.face = 'F' then rotateFrontFace s p.clockwise
  else if p.face = 'B' then rotateBackFace s p.clockwise
  else if p.face = 'R' then rotateRightFace s p.clockwise
  else if p.face = 'L' then rotateLeftFace s p.clockwise
  else if p.face = 'U' then rotateUpFace s p.clockwise
  else if p.face = 'D' then rotateDownFace s p.clockwise
  else s

/-- A 3x3 grid: three rows of three entries. -/
def gridWFb (g : List (List String)) : Bool :=
  g.length == 3 && g.all (fun row => row.length == 3)

/-- Well-formed cube state: all six faces are 3x3 grids. -/
def CubeState.wfb (s : CubeState) : Bool :=
  gridWFb s.front.colors && gridWFb s.back.colors && gridWFb s.up.colors &&
    gridWFb s.down.colors && gridWFb s.left.colors && gridWFb s.right.colors

/-- Total number of stickers of a state: the summed lengths of the rows of
the six faces (the spec's `stickerCount`). -/
def stickerCount (s : CubeState) : Nat :=
  (s.front.colors.map List.length).sum + (s.back.colors.map List.length).sum +
    (s.up.colors.map List.length).sum + (s.down.colors.map List.length).sum +
    (s.left.colors.map List.length).sum + (s.right.colors.map List.length).sum

/-- A concrete well-formed state with 54 pairwise distinct stickers, used
as the test vehicle for the move-engine claims. -/
def testState : CubeState :=
  ⟨⟨[["f0", "f1", "f2"], ["f3", "f4", "f5"], ["f6", "f7", "f8"]]⟩,
   ⟨[["b0", "b1", "b2"], ["b3", "b4", "b5"], ["b6", "b7", "b8"]]⟩,
   ⟨[["u0", "u1", "u2"], ["u3", "u4", "u5"], ["u6", "u7", "u8"]]⟩,
   ⟨[["d0", "d1", "d2"], ["d3", "d4", "d5"], ["d6", "d7", "d8"]]⟩,
   ⟨[["l0", "l1", "l2"], ["l3", "l4", "l5"], ["l6", "l7", "l8"]]⟩,
   ⟨[["r0", "r1", "r2"], ["r3", "r4", "r5"], ["r6", "r7", "r8"]]⟩⟩

/-- Four successive applications of one move. -/
def applyFour (s : CubeState) (m : String) : CubeState :=
  applyMoveToCubeState (applyMoveToCubeState (applyMoveToCubeState
    (applyMoveToCubeState s m) m) m) m

/-- Counter-clockwise move strings, written without apostrophe literals. -/
def ccwMove (c : Char) : String := String.mk [c, Char.ofNat 39]

example : applyFour testState "F" = testState := by decide
example : applyFour testState "B" ≠ testState := by decide
example : applyFour testState (ccwMove 'B') = testState := by decide

/-- A grid accepted by `gridWFb` is literally a 3x3 list of lists. -/
lemma grid_shape {g : List (List String)} (h : gridWFb g = true) :
    ∃ x11 x12 x13 x21 x22 x23 x31 x32 x33,
      g = [[x11, x12, x13], [x21, x22, x23], [x31, x32, x33]] := by
  have hg : g.length = 3 ∧ ∀ r ∈ g, r.length = 3 := by
    simpa [gridWFb, List.all_eq_true] using h
  obtain ⟨r1, r2, r3, rfl⟩ := List.length_eq_three.mp hg.1
  obtain ⟨a, b, c, rfl⟩ := List.length_eq_three.mp (hg.2 r1 (by simp))
  obtain ⟨d, e, f, rfl⟩ := List.length_eq_three.mp (hg.2 r2 (by simp))
  obtain ⟨p, q, r, rfl⟩ := List.length_eq_three.mp (hg.2 r3 (by simp))
  exact ⟨a, b, c, d, e, f, p, q, r, rfl⟩

/-- Claim C5: applying any move string to a well-formed cube state yields
a state that again has six 3x3 faces, hence 9 stickers per face and 54
stickers in total; the sticker count of the input is 54 as well. -/
theorem applyMove_preserves_shape (s : CubeState) (m : String) (h : s.wfb = true) :
    (applyMoveToCubeState s m).wfb = true ∧
      stickerCount (applyMoveToCubeState s m) = 54 ∧ stickerCount s = 54 := by
  obtain ⟨⟨fr⟩, ⟨bk⟩, ⟨up⟩, ⟨dn⟩, ⟨lf⟩, ⟨rt⟩⟩ := s
  simp only [CubeState.wfb, Bool.and_eq_true] at h
  obtain ⟨⟨⟨⟨⟨h1, h2⟩, h3⟩, h4⟩, h5⟩, h6⟩ := h
  obtain ⟨a1, a2, a3, a4, a5, a6, a7, a8, a9, rfl⟩ := grid_shape h1
  obtain ⟨b1, b2, b3, b4, b5, b6, b7, b8, b9, rfl⟩ := grid_shape h2
  obtain ⟨c1, c2, c3, c4, c5, c6, c7, c8, c9, rfl⟩ := grid_shape h3
  obtain ⟨d1, d2, d3, d4, d5, d6, d7, d8, d9, rfl⟩ := grid_shape h4
  obtain ⟨e1, e2, e3, e4, e5, e6, e7, e8, e9, rfl⟩ := grid_shape h5
  obtain ⟨f1, f2, f3, f4, f5, f6, f7, f8, f9, rfl⟩ := grid_shape h6
  by_cases hF : (parseMove m).face = 'F'
  · cases hcw : (parseMove m).clockwise <;>
      simp only [applyMoveToCubeState, hF, hcw, reduceIte] <;> exact ⟨rfl, rfl, rfl⟩
  by_cases hB : (parseMove m).face = 'B'
  · cases hcw : (parseMove m).clockwise <;>
      simp only [applyMoveToCubeState, hF, hB, hcw, reduceIte] <;> exact ⟨rfl, rfl, rfl⟩
  by_cases hR : (parseMove m).face = 'R'
  · cases hcw : (parseMove m).clockwise <;>
      simp only [applyMoveToCubeState, hF, hB, hR, hcw, reduceIte] <;> exact ⟨rfl, rfl, rfl⟩
  by_cases hL : (parseMove m).face = 'L'
  · cases hcw : (parseMove m).clockwise <;>
      simp only [applyMoveToCubeState, hF, hB, hR, hL, hcw, reduceIte] <;> exact ⟨rfl, rfl, rfl⟩
  by_cases hU : (parseMove m).face = 'U'
  · cases hcw : (parseMove m).clockwise <;>
      simp only [applyMoveToCubeState, hF, hB, hR, hL, hU, hcw, reduceIte] <;>
      exact ⟨rfl, rfl, rfl⟩
  by_cases hD : (parseMove m).face = 'D'
  · cases hcw : (parseMove m).clockwise <;>
      simp only [applyMoveToCubeState, hF, hB, hR, hL, hU, hD, hcw, reduceIte] <;>
      exact ⟨rfl, rfl, rfl⟩
  · simp only [applyMoveToCubeState, hF, hB, hR, hL, hU, hD, reduceIte]
    exact ⟨rfl, rfl, rfl⟩

/-- Witness for C5 at a concrete state and move. -/
theorem applyMove_preserves_shape_witness :
    testState.wfb = true ∧ (applyMoveToCubeState testState "R").wfb = true ∧
      stickerCount (applyMoveToCubeState testState "R") = 54 ∧ stickerCount testState = 54 :=
  ⟨by decide, applyMove_preserves_shape testState "R" (by decide)⟩

/-- Claim C10: for a well-formed state, any move whose parsed face letter
is F leaves the back face unchanged, a B move leaves the front face
unchanged, and likewise R/left, L/right, U/down, D/up — the face opposite
the rotating face never participates in the edge cycle. -/
theorem applyMove_fixes_opposite_face (s : CubeState) (m : String) (h : s.wfb = true) :
    ((parseMove m).face = 'F' → (applyMoveToCubeState s m).back = s.back) ∧
    ((parseMove m).face = 'B' → (applyMoveToCubeState s m).front = s.front) ∧
    ((parseMove m).face = 'R' → (applyMoveToCubeState s m).left = s.left) ∧
    ((parseMove m).face = 'L' → (applyMoveToCubeState s m).right = s.right) ∧
    ((parseMove m).face = 'U' → (applyMoveToCubeState s m).down = s.down) ∧
    ((parseMove m).face = 'D' → (applyMoveToCubeState s m).up = s.up) := by
  obtain ⟨⟨fr⟩, ⟨bk⟩, ⟨up⟩, ⟨dn⟩, ⟨lf⟩, ⟨rt⟩⟩ := s
  simp only [CubeState.wfb, Bool.and_eq_true] at h
  obtain ⟨⟨⟨⟨⟨h1, h2⟩, h3⟩, h4⟩, h5⟩, h6⟩ := h
  obtain ⟨a1, a2, a3, a4, a5, a6, a7, a8, a9, rfl⟩ := grid_shape h1
  obtain ⟨b1, b2, b3, b4, b5, b6, b7, b8, b9, rfl⟩ := grid_shape h2
  obtain ⟨c1, c2, c3, c4, c5, c6, c7, c8, c9, rfl⟩ := grid_shape h3
  obtain ⟨d1, d2, d3, d4, d5, d6, d7, d8, d9, rfl⟩ := grid_shape h4
  obtain ⟨e1, e2, e3, e4, e5, e6, e7, e8, e9, rfl⟩ := grid_shape h5
  obtain ⟨f1, f2, f3, f4, f5, f6, f7, f8, f9, rfl⟩ := grid_shape h6
  refine ⟨fun hf => ?_, fun hf => ?_, fun hf => ?_, fun hf => ?_, fun hf => ?_, fun hf => ?_⟩ <;>
    cases hcw : (parseMove m).clockwise <;>
    simp only [applyMoveToCubeState, hf, hcw, reduceIte] <;> rfl

/-- Witness for C10: an R move on the concrete test state keeps the left
face intact. -/
theorem applyMove_fixes_opposite_face_witness :
    testState.wfb = true ∧ (applyMoveToCubeState testState "R").left = testState.left :=
  ⟨by decide, (applyMove_fixes_opposite_face testState "R" (by decide)).2.2.1 (by decide)⟩

/-- Claim C1 (evaluation at the failing input): on a well-formed state
with 54 pairwise distinct stickers, four applications of the clockwise
back move "B" do not restore the state — `rotateBackFace` wires one edge
strip with an odd number of orientation flips, so "B" has order 8 instead
of 4 — while each of the other eleven quarter-turn moves does return the
state after four applications. -/
theorem quarter_turn_fourth_power : applyFour testState "B" ≠ testState ∧
    applyFour testState "F" = testState ∧ applyFour testState "R" = testState ∧
    applyFour testState "L" = testState ∧ applyFour testState "U" = testState ∧
    applyFour testState "D" = testState ∧
    applyFour testState (ccwMove 'F') = testState ∧
    applyFour testState (ccwMove 'B') = testState ∧
    applyFour testState (ccwMove 'R') = testState ∧
    applyFour testState (ccwMove 'L') = testState ∧
    applyFour testState (ccwMove 'U') = testState ∧
    applyFour testState (ccwMove 'D') = testState := by
  refine ⟨by decide, ?_, ?_, ?_, ?_, ?_, ?_, ?_, ?_, ?_, ?_, ?_⟩ <;> decide

/-- Claim C2 (evaluation at the failing input): `parseMove` records a
half-turn angle of pi for "F2", but `applyMoveToCubeState` ignores the
angle and performs a single clockwise quarter turn, so "F2" acts exactly
like "F" and two applications of "F2" do not restore the state. -/
theorem half_turn_is_single_quarter_turn :
    applyMoveToCubeState (applyMoveToCubeState testState "F2") "F2" ≠ testState ∧
    applyMoveToCubeState testState "F2" = applyMoveToCubeState testState "F" ∧
    applyMoveToCubeState testState "R2" = applyMoveToCubeState testState "R" ∧
    (parseMove "F2").angleOverPi = 1 ∧ (parseMove "F").angleOverPi = 1 / 2 := by
  refine ⟨by decide, by decide, by decide, rfl, rfl⟩

/-- Claim C4 (counterexample): a move string whose leading character is
not a face letter is not rejected; `applyMoveToCubeState` falls through
its switch and returns the copied state unchanged — no error result
exists anywhere in the engine. -/
theorem unrecognized_move_returns_state :
    applyMoveToCubeState testState "X" = testState := by decide

/-- Claim C4 (amended): for every state and every move string whose
parsed face letter is none of F, B, R, L, U, D, the engine returns its
input state unchanged instead of signalling an error. -/
theorem unrecognized_move_is_identity (s : CubeState) (m : String)
    (h : (parseMove m).face ∉ (['F', 'B', 'R', 'L', 'U', 'D'] : List Char)) :
    applyMoveToCubeState s m = s := by
  simp only [List.mem_cons, List.not_mem_nil, or_false, not_or] at h
  obtain ⟨h1, h2, h3, h4, h5, h6⟩ := h
  simp [applyMoveToCubeState, h1, h2, h3, h4, h5, h6]

/-- Witness for the amended C4 at a concrete state and move. -/
theorem unrecognized_move_is_identity_witness :
    (parseMove "Z").face ∉ (['F', 'B', 'R', 'L', 'U', 'D'] : List Char) ∧
      applyMoveToCubeState testState "Z" = testState :=
  ⟨by decide, unrecognized_move_is_identity testState "Z" (by decide)⟩

/-! ## Part 2: grid consistency corrector and alignment scoring
(src/components/CubeRecognition.js) -/

/-- Replace the first `n` occurrences of `src` by `dst` in a row,
returning the rewritten row and the remaining budget. -/
def replaceRowFirstN : List String → Nat → String → String → (List String × Nat)
  | [], n, _, _ => ([], n)
  | c :: cs, n, src, dst =>
    if 0 < n ∧ c = src then
      let rest := replaceRowFirstN cs (n - 1) src dst
      (dst :: rest.1, rest.2)
    else
      let rest := replaceRowFirstN cs n src dst
      (c :: rest.1, rest.2)

/-- Replace the first `n` occurrences of `src` by `dst` in row-major scan
order, as the nested correction loops of `validateAndCorrectColors` do. -/
def replaceFirstN : List (List String) → Nat → String → String → List (List String)
  | [], _, _, _ => []
  | row :: rest, n, src, dst =>
    let rowRes := replaceRowFirstN row n src dst
    rowRes.1 :: replaceFirstN rest rowRes.2 src dst

/-- `validateAndCorrectColors` (lines 1801-1860).  The source counts each
valid color once at entry, then walks the count table in key-insertion
order; only the yellow and orange entries can modify the grid, both
branches test the entry counts, and on a nine-cell face at most one color
can occur more than six times, so the two conditional rewrites below (in
this fixed order) implement the loop. -/
def validateAndCorrectColors (colors : List (List String)) : List (List String) :=
  if colors = [] then colors else
  let flat := colors.flatten
  let yellowCount := flat.count "yellow"
  let orangeCount := flat.count "orange"
  let redCount := flat.count "red"
  let g1 := if yellowCount > 6 ∧ orangeCount < 3 then
      replaceFirstN colors (yellowCount - 6) "yellow" "orange" else colors
  if orangeCount > 6 ∧ redCount < 3 then
    replaceFirstN g1 (orangeCount - 6) "orange" "red" else g1

/-- Apply `f i j cell` to every cell, with its row and column index. -/
def gridMapIdx (f : Nat → Nat → String → String) (g : List (List String)) :
    List (List String) :=
  g.enum.map (fun rowp => rowp.2.enum.map (fun cp => f rowp.1 cp.1 cp.2))

/-- `validateColorConfusion` (lines 2328-2407).  White/yellow: when both
occur and the center cell is white (so yellow is not in the center), every
white and yellow label is swapped.  Orange/red: when both occur and
orange outnumbers red, orange cells on an edge or corner are rewritten to
red (the inner `orange > 2` test reads the entry count). -/
def validateColorConfusion (colors : List (List String)) : List (List String) :=
  if colors = [] then colors else
  let flat := colors.flatten
  let whiteCount := flat.count "white"
  let yellowCount := flat.count "yellow"
  let orangeCount := flat.count "orange"
  let redCount := flat.count "red"
  let whiteInCenter := getCell colors 1 1 = "white"
  let yellowInCenter := getCell colors 1 1 = "yellow"
  let g1 := if whiteCount > 0 ∧ yellowCount > 0 then
      (if whiteInCenter ∧ ¬ yellowInCenter then
        colors.map (fun row => row.map (fun c =>
          if c = "white" then "yellow" else if c = "yellow" then "white" else c))
      else colors)
    else colors
  if orangeCount > 0 ∧ redCount > 0 then
    (if orangeCount > redCount then
      gridMapIdx (fun i j c =>
        if c = "orange" ∧ (i = 0 ∨ i = 2 ∨ j = 0 ∨ j = 2) ∧ orangeCount > 2 then "red"
        else c) g1
    else g1)
  else g1

/-- `validateBlueYellowConfusion` (lines 2410-2463).  Both branches test
the counts taken at entry; the first rewrites yellow cells on an edge or
corner to blue, the second rewrites blue cells on the middle row or
column to yellow. -/
def validateBlueYellowConfusion (colors : List (List String)) : List (List String) :=
  if colors = [] then colors else
  let flat := colors.flatten
  let blueCount := flat.count "blue"
  let yellowCount := flat.count "yellow"
  let g1 := if yellowCount > 4 ∧ blueCount < 2 then
      gridMapIdx (fun i j c =>
        if c = "yellow" ∧ (i = 0 ∨ i = 2 ∨ j = 0 ∨ j = 2) ∧ yellowCount > 4 then "blue"
        else c) colors
    else colors
  if blueCount > 4 ∧ yellowCount < 2 then
    gridMapIdx (fun i j c =>
      if c = "blue" ∧ (i = 1 ∨ j = 1) ∧ blueCount > 4 then "yellow" else c) g1
  else g1

/-- The corrector pass exactly as `analyzeColorsOptimized` chains it
(lines 1964-1971): count correction, then white/yellow and orange/red
confusion, then blue/yellow confusion. -/
def correctorPass (g : List (List String)) : List (List String) :=
  validateBlueYellowConfusion (validateColorConfusion (validateAndCorrectColors g))

example : correctorPass [["yellow", "yellow", "yellow"], ["green", "green", "green"],
    ["yellow", "green", "yellow"]] =
    [["blue", "blue", "blue"], ["green", "green", "green"], ["blue", "green", "blue"]] := by
  decide

/-- Claim C3 (counterexample): the corrector pass is not idempotent.  On
a face with five yellow cells on edges and corners, the first run turns
them all blue; the second run then sees five blues and rewrites the one
at the middle of the top row back to yellow. -/
theorem correctorPass_not_idempotent :
    correctorPass (correctorPass [["yellow", "yellow", "yellow"],
        ["green", "green", "green"], ["yellow", "green", "yellow"]]) ≠
      correctorPass [["yellow", "yellow", "yellow"], ["green", "green", "green"],
        ["yellow", "green", "yellow"]] := by
  decide


/-- Stage one of the pass changes nothing when neither count trigger fires. -/
lemma validateAndCorrectColors_no_trigger {g : List (List String)}
    (hY : ¬(g.flatten.count "yellow" > 6 ∧ g.flatten.count "orange" < 3))
    (hO : ¬(g.flatten.count "orange" > 6 ∧ g.flatten.count "red" < 3)) :
    validateAndCorrectColors g = g := by
  by_cases hg : g = []
  · simp [validateAndCorrectColors, hg]
  · simp only [validateAndCorrectColors, if_neg hg, if_neg hY, if_neg hO]

/-- Stage two changes nothing when neither confusion trigger fires. -/
lemma validateColorConfusion_no_trigger {g : List (List String)}
    (hWY : ¬(g.flatten.count "white" > 0 ∧ g.flatten.count "yellow" > 0 ∧
      getCell g 1 1 = "white"))
    (hOR : ¬(g.flatten.count "orange" > 0 ∧ g.flatten.count "red" > 0 ∧
      g.flatten.count "orange" > g.flatten.count "red")) :
    validateColorConfusion g = g := by
  by_cases hg : g = []
  · simp [validateColorConfusion, hg]
  · simp only [validateColorConfusion, if_neg hg]
    have hswap : (if g.flatten.count "white" > 0 ∧ g.flatten.count "yellow" > 0 then
        (if getCell g 1 1 = "white" ∧ ¬ getCell g 1 1 = "yellow" then
          g.map (fun row => row.map (fun c =>
            if c = "white" then "yellow" else if c = "yellow" then "white" else c))
        else g) else g) = g := by
      by_cases hwy : g.flatten.count "white" > 0 ∧ g.flatten.count "yellow" > 0
      · rw [if_pos hwy, if_neg (fun hc => hWY ⟨hwy.1, hwy.2, hc.1⟩)]
      · rw [if_neg hwy]
    rw [hswap]
    by_cases hor : g.flatten.count "orange" > 0 ∧ g.flatten.count "red" > 0
    · rw [if_pos hor, if_neg (fun hc => hOR ⟨hor.1, hor.2, hc⟩)]
    · rw [if_neg hor]

/-- Stage three changes nothing when neither blue/yellow trigger fires. -/
lemma validateBlueYellowConfusion_no_trigger {g : List (List String)}
    (hBY : ¬(g.flatten.count "yellow" > 4 ∧ g.flatten.count "blue" < 2))
    (hYB : ¬(g.flatten.count "blue" > 4 ∧ g.flatten.count "yellow" < 2)) :
    validateBlueYellowConfusion g = g := by
  by_cases hg : g = []
  · simp [validateBlueYellowConfusion, hg]
  · simp only [validateBlueYellowConfusion, if_neg hg, if_neg hBY, if_neg hYB]

/-- Claim C3 (amended): on every grid that fires none of the correction
triggers — at most six yellows or at least three oranges, at most six
oranges or at least three reds, not (white and yellow both present with a
white center cell), not (orange and red both present with orange ahead of
red), at most four yellows or at least two blues, and at most four blues
or at least two yellows — the pass returns the grid unchanged and is
therefore idempotent there.  Grids that do fire a trigger can violate
idempotence, as the blue/yellow counterexample shows. -/
theorem correctorPass_idempotent_when_no_trigger (g : List (List String))
    (hY : ¬(g.flatten.count "yellow" > 6 ∧ g.flatten.count "orange" < 3))
    (hO : ¬(g.flatten.count "orange" > 6 ∧ g.flatten.count "red" < 3))
    (hWY : ¬(g.flatten.count "white" > 0 ∧ g.flatten.count "yellow" > 0 ∧
      getCell g 1 1 = "white"))
    (hOR : ¬(g.flatten.count "orange" > 0 ∧ g.flatten.count "red" > 0 ∧
      g.flatten.count "orange" > g.flatten.count "red"))
    (hBY : ¬(g.flatten.count "yellow" > 4 ∧ g.flatten.count "blue" < 2))
    (hYB : ¬(g.flatten.count "blue" > 4 ∧ g.flatten.count "yellow" < 2)) :
    correctorPass g = g ∧ correctorPass (correctorPass g) = correctorPass g := by
  have hid : correctorPass g = g := by
    unfold correctorPass
    rw [validateAndCorrectColors_no_trigger hY hO,
      validateColorConfusion_no_trigger hWY hOR,
      validateBlueYellowConfusion_no_trigger hBY hYB]
  exact ⟨hid, by rw [hid]; exact hid⟩

/-- Witness for the amended C3 at a concrete trigger-free grid. -/
theorem correctorPass_idempotent_witness :
    correctorPass [["green", "red", "green"], ["white", "white", "blue"],
        ["green", "blue", "orange"]] =
      [["green", "red", "green"], ["white", "white", "blue"],
        ["green", "blue", "orange"]] :=
  (correctorPass_idempotent_when_no_trigger _ (by decide) (by decide) (by decide)
    (by decide) (by decide) (by decide)).1

/-- The alignment score the live pipeline computes, from
`analyzeColorsOptimized` line 1973:
`Math.min(100, (validDetections / 9) * 100 + (totalConfidence / 9) * 30)`.
`totalConfidence` sums the confidences of exactly the facelets counted in
`validDetections`, so it is `0` whenever `validDetections` is `0`. -/
def pipelineAlignmentScore (validDetections : ℕ) (totalConfidence : ℚ) : ℚ :=
  min 100 ((validDetections : ℚ) / 9 * 100 + totalConfidence / 9 * 30)

/-- `calculateAlignmentScore` (lines 2772-2796), the separate helper used
only by the non-optimized `analyzeColors` path: detection points up to 60,
capped confidence points up to 30, capped color-diversity points up to
10, rounded and capped at 100. -/
def calculateAlignmentScore (validDetections : ℕ) (totalConfidence : ℚ)
    (colors : List (List String)) : ℚ :=
  if colors = [] then 0 else
  let detectionScore := (validDetections : ℚ) / 9 * 60
  let confidenceScore := min 30 (totalConfidence / 9 * 30)
  let uniqueColors := (colors.flatten.filter (fun c => c ≠ "unknown")).dedup.length
  let distributionScore := min 10 ((uniqueColors : ℚ) * 2)
  min 100 ((round (detectionScore + confidenceScore + distributionScore) : ℤ) : ℚ)

/-- Modelled from the spec: the score formula asserted by the claim,
`min(100, 60·(validDetections/9) + min(30, 30·avgConfidence) +
min(10, 2·uniqueColorCount))`, reading `avgConfidence` as
`totalConfidence / 9` as both score implementations do. -/
def specAlignmentScore (validDetections : ℕ) (totalConfidence : ℚ)
    (colors : List (List String)) : ℚ :=
  let avgConfidence := totalConfidence / 9
  let uniqueColorCount := (colors.flatten.filter (fun c => c ≠ "unknown")).dedup.length
  min 100 (60 * ((validDetections : ℚ) / 9) + min 30 (30 * avgConfidence) +
    min 10 (2 * (uniqueColorCount : ℚ)))

/-- Claim C7 (counterexample): with nine valid detections of total
confidence 9 on a single-colored face, the pipeline reports 100, while
the claimed three-term formula caps at 92 — the score the pipeline
produces has no color-diversity term at all. -/
theorem pipeline_score_ne_claimed_formula :
    pipelineAlignmentScore 9 9 ≠
      specAlignmentScore 9 9 [["red", "red", "red"], ["red", "red", "red"],
        ["red", "red", "red"]] := by
  have hu : (([["red", "red", "red"], ["red", "red", "red"],
      ["red", "red", "red"]].flatten.filter (fun c => c ≠ "unknown")).dedup.length) = 1 := by
    rfl
  unfold pipelineAlignmentScore specAlignmentScore
  rw [hu]
  norm_num

/-- Claim C7 (amended): the score produced by the pipeline is
`min(100, 100·(v/9) + 30·(t/9))`; it is exactly 0 for zero valid
detections (the pipeline then has accumulated zero confidence) and
exactly 100 — in particular at least 95 — when all nine facelets are
validly detected, whatever their confidences; the claimed three-term
formula is computed only by the unused `calculateAlignmentScore` helper. -/
theorem pipeline_score_endpoints (t : ℚ) (ht : 0 ≤ t) :
    pipelineAlignmentScore 0 0 = 0 ∧ pipelineAlignmentScore 9 t = 100 ∧
      95 ≤ pipelineAlignmentScore 9 t := by
  refine ⟨?_, ?_, ?_⟩
  · unfold pipelineAlignmentScore
    norm_num
  · unfold pipelineAlignmentScore
    rw [min_eq_left (by push_cast; linarith)]
  · unfold pipelineAlignmentScore
    rw [min_eq_left (by push_cast; linarith)]
    norm_num

/-- Witness for the amended C7 at total confidence 1. -/
theorem pipeline_score_endpoints_witness :
    pipelineAlignmentScore 0 0 = 0 ∧ pipelineAlignmentScore 9 1 = 100 ∧
      95 ≤ pipelineAlignmentScore 9 1 :=
  pipeline_score_endpoints 1 zero_le_one

/-! ## Part 3: color-space conversion and the classification pipeline -/

/-- `rgbToHsv` (lines 106-120): channels are normalized to `[0,1]`, the
saturation guard returns 0 when the maximum channel is 0, and the hue
sector is picked by which channel attains the maximum (ties resolved in
the source's `if`/`else if` order).  Generic over any linear ordered
field, so it can be read back at exact rationals and instantiated at the
reals inside the classifier. -/
def rgbToHsv {α : Type} [LinearOrderedField α] (r g b : α) : α × α × α :=
  let rn := r / 255
  let gn := g / 255
  let bn := b / 255
  let mx := max rn (max gn bn)
  let mn := min rn (min gn bn)
  let v := mx
  let d := mx - mn
  let s := if mx = 0 then 0 else d / mx
  let h := if d = 0 then 0 else
    (if mx = rn then (gn - bn) / d + (if gn < bn then 6 else 0)
     else if mx = gn then (bn - rn) / d + 2
     else if mx = bn then (rn - gn) / d + 4
     else 0) * 60
  (h, s * 255, v * 255)

/-- Claim C9: for channels in `[0,255]` the conversion is total (the
`max = 0` case is guarded, all other divisions are by the nonzero chroma)
and its components satisfy `h ∈ [0,360)`, `s ∈ [0,255]`, `v ∈ [0,255]`. -/
theorem rgbToHsv_range {α : Type} [LinearOrderedField α] (r g b : α)
    (hr0 : 0 ≤ r) (hr1 : r ≤ 255) (hg0 : 0 ≤ g) (hg1 : g ≤ 255)
    (hb0 : 0 ≤ b) (hb1 : b ≤ 255) :
    (0 ≤ (rgbToHsv r g b).1 ∧ (rgbToHsv r g b).1 < 360) ∧
    (0 ≤ (rgbToHsv r g b).2.1 ∧ (rgbToHsv r g b).2.1 ≤ 255) ∧
    (0 ≤ (rgbToHsv r g b).2.2 ∧ (rgbToHsv r g b).2.2 ≤ 255) := by
  have h255 : (0:α) < 255 := by norm_num
  simp only [rgbToHsv]
  set rn := r / 255 with hrn
  set gn := g / 255 with hgn
  set bn := b / 255 with hbn
  have hrn0 : 0 ≤ rn := div_nonneg hr0 (le_of_lt h255)
  have hgn0 : 0 ≤ gn := div_nonneg hg0 (le_of_lt h255)
  have hbn0 : 0 ≤ bn := div_nonneg hb0 (le_of_lt h255)
  have hrn1 : rn ≤ 1 := (div_le_one h255).mpr hr1
  have hgn1 : gn ≤ 1 := (div_le_one h255).mpr hg1
  have hbn1 : bn ≤ 1 := (div_le_one h255).mpr hb1
  set mx := max rn (max gn bn) with hmx
  set mn := min rn (min gn bn) with hmn
  have hmx0 : 0 ≤ mx := le_trans hrn0 (le_max_left _ _)
  have hmx1 : mx ≤ 1 := max_le hrn1 (max_le hgn1 hbn1)
  have hmn0 : 0 ≤ mn := le_min hrn0 (le_min hgn0 hbn0)
  have hmnmx : mn ≤ mx := le_trans (min_le_left _ _) (le_max_left _ _)
  have hrmx : rn ≤ mx := le_max_left _ _
  have hgmx : gn ≤ mx := le_trans (le_max_left _ _) (le_max_right _ _)
  have hbmx : bn ≤ mx := le_trans (le_max_right _ _) (le_max_right _ _)
  have hrmn : mn ≤ rn := min_le_left _ _
  have hgmn : mn ≤ gn := le_trans (min_le_right _ _) (min_le_left _ _)
  have hbmn : mn ≤ bn := le_trans (min_le_right _ _) (min_le_right _ _)
  set d := mx - mn with hd
  have hd0 : 0 ≤ d := sub_nonneg.mpr hmnmx
  refine ⟨?_, ?_, ?_⟩
  · by_cases hdz : d = 0
    · simp [hdz]
    · have hdpos : 0 < d := lt_of_le_of_ne hd0 (Ne.symm hdz)
      rw [if_neg hdz]
      have hsector : ∀ x y : α, mn ≤ x → x ≤ mx → mn ≤ y → y ≤ mx →
          -1 ≤ (x - y) / d ∧ (x - y) / d ≤ 1 := by
        intro x y hx1 hx2 hy1 hy2
        constructor
        · rw [le_div_iff₀ hdpos]
          linarith
        · rw [div_le_one hdpos]
          linarith
      by_cases h1 : mx = rn
      · obtain ⟨hl, hu⟩ := hsector gn bn hgmn hgmx hbmn hbmx
        rw [if_pos h1]
        by_cases h2 : gn < bn
        · have hneg : (gn - bn) / d < 0 :=
            div_neg_of_neg_of_pos (sub_neg.mpr h2) hdpos
          rw [if_pos h2]
          constructor <;> linarith
        · rw [if_neg h2]
          have hge : 0 ≤ (gn - bn) / d :=
            div_nonneg (sub_nonneg.mpr (le_of_not_lt h2)) (le_of_lt hdpos)
          constructor <;> linarith
      · rw [if_neg h1]
        by_cases h2 : mx = gn
        · obtain ⟨hl, hu⟩ := hsector bn rn hbmn hbmx hrmn hrmx
          rw [if_pos h2]
          constructor <;> linarith
        · rw [if_neg h2]
          by_cases h3 : mx = bn
          · obtain ⟨hl, hu⟩ := hsector rn gn hrmn hrmx hgmn hgmx
            rw [if_pos h3]
            constructor <;> linarith
          · rw [if_neg h3]
            norm_num
  · by_cases hmz : mx = 0
    · simp [hmz]
    · have hmpos : 0 < mx := lt_of_le_of_ne hmx0 (Ne.symm hmz)
      rw [if_neg hmz]
      have hs1 : d / mx ≤ 1 := (div_le_one hmpos).mpr (by linarith)
      have hs0 : 0 ≤ d / mx := div_nonneg hd0 (le_of_lt hmpos)
      constructor <;> linarith
  · constructor <;> linarith

/-- Witness for C9 at the exact rationals, on the boundary input where
the maximum channel is 0. -/
theorem rgbToHsv_range_witness :
    (0 ≤ (rgbToHsv (0:ℚ) 0 0).1 ∧ (rgbToHsv (0:ℚ) 0 0).1 < 360) ∧
    (0 ≤ (rgbToHsv (0:ℚ) 0 0).2.1 ∧ (rgbToHsv (0:ℚ) 0 0).2.1 ≤ 255) ∧
    (0 ≤ (rgbToHsv (0:ℚ) 0 0).2.2 ∧ (rgbToHsv (0:ℚ) 0 0).2.2 ≤ 255) :=
  rgbToHsv_range 0 0 0 le_rfl (by norm_num) le_rfl (by norm_num) le_rfl (by norm_num)

open Classical

/-- `rgbToLab` (lines 122-153): gamma-corrected sRGB to XYZ to CIE-LAB
with D65 white point.  `Math.pow` is real exponentiation (`rpow`). -/
noncomputable def rgbToLab (r g b : ℝ) : ℝ × ℝ × ℝ :=
  let rn0 := r / 255
  let gn0 := g / 255
  let bn0 := b / 255
  let rn := if rn0 > 0.04045 then ((rn0 + 0.055) / 1.055) ^ (2.4:ℝ) else rn0 / 12.92
  let gn := if gn0 > 0.04045 then ((gn0 + 0.055) / 1.055) ^ (2.4:ℝ) else gn0 / 12.92
  let bn := if bn0 > 0.04045 then ((bn0 + 0.055) / 1.055) ^ (2.4:ℝ) else bn0 / 12.92
  let x := rn * 0.4124 + gn * 0.3576 + bn * 0.1805
  let y := rn * 0.2126 + gn * 0.7152 + bn * 0.0722
  let z := rn * 0.0193 + gn * 0.1192 + bn * 0.9505
  let xn := x / 0.95047
  let yn := y / 1.00000
  let zn := z / 1.08883
  let fx := if xn > 0.008856 then xn ^ ((1:ℝ)/3) else 7.787 * xn + 16 / 116
  let fy := if yn > 0.008856 then yn ^ ((1:ℝ)/3) else 7.787 * yn + 16 / 116
  let fz := if zn > 0.008856 then zn ^ ((1:ℝ)/3) else 7.787 * zn + 16 / 116
  (116 * fy - 16, 500 * (fx - fy), 200 * (fy - fz))

/-- The normalized reference-distance score of `detectColorRevolutionary`
technique 4 (lines 2656-2666): `max(0, 1 - distance/250)`. -/
noncomputable def distScore (r g b cr cg cb : ℝ) : ℝ :=
  max 0 (1 - Real.sqrt ((r - cr) ^ 2 + (g - cg) ^ 2 + (b - cb) ^ 2) / 250)

/-- White score accumulated by `detectColorRevolutionary`
(lines 2550-2552, 2586-2588, 2617-2619 and the white reference of
technique 4).  The conversions are recomputed per helper; they are pure,
so the values match the source's single computation.  The source
destructures the LAB blue-yellow channel as `b_lab`, but its "LAB"
criterion tests `b` — the raw blue parameter — and `b_lab` is never
read; the embedding follows the code as executed. -/
noncomputable def revoScoreWhite (r g b : ℝ) : ℝ :=
  let hsv := rgbToHsv r g b
  let s := hsv.2.1
  let v := hsv.2.2
  let lab := rgbToLab r g b
  let l := lab.1
  let a := lab.2.1
  (if v > 180 ∧ s < 60 ∧ |r - g| < 40 ∧ |g - b| < 40 ∧ |r - b| < 40 then 3.5 else 0) +
  (if (r + g + b) / 3 > 160 ∧ max r (max g b) - min r (min g b) < 60 ∧
      r > 140 ∧ g > 140 ∧ b > 140 then 2.5 else 0) +
  (if l > 70 ∧ |a| < 25 ∧ |b| < 25 then 2.5 else 0) +
  distScore r g b 255 255 255 * 1.5

/-- Red score of `detectColorRevolutionary` (lines 2555-2557, 2591-2593,
2622-2624, red reference).  Line 2622 tests the raw blue parameter `b`,
not the unused `b_lab`. -/
noncomputable def revoScoreRed (r g b : ℝ) : ℝ :=
  let hsv := rgbToHsv r g b
  let h := hsv.1
  let s := hsv.2.1
  let v := hsv.2.2
  let lab := rgbToLab r g b
  let l := lab.1
  let a := lab.2.1
  (if (h < 8 ∨ h > 352) ∧ s > 120 ∧ v > 80 ∧ r > g * 1.8 ∧ r > b * 1.8 ∧ g < 80
    then 2.5 else 0) +
  (if r > 130 ∧ r > g * 1.8 ∧ r > b * 1.8 ∧ g < 80 ∧ b < 80 then 2.0 else 0) +
  (if a > 35 ∧ l > 45 ∧ b < 15 then 2.0 else 0) +
  distScore r g b 255 0 0 * 1.5

/-- Orange score of `detectColorRevolutionary` (lines 2560-2562,
2596-2598, 2627-2629, orange reference).  Line 2627 tests the raw blue parameter
`b`, not the unused `b_lab`. -/
noncomputable def revoScoreOrange (r g b : ℝ) : ℝ :=
  let hsv := rgbToHsv r g b
  let h := hsv.1
  let s := hsv.2.1
  let v := hsv.2.2
  let lab := rgbToLab r g b
  let l := lab.1
  let a := lab.2.1
  (if h ≥ 15 ∧ h ≤ 40 ∧ s > 100 ∧ v > 80 ∧ r > g ∧ g > b ∧ r > 100 ∧ r - g < 50 ∧ g > 80
    then 2.5 else 0) +
  (if r > 120 ∧ g > 80 ∧ b < 80 ∧ r > g ∧ g > b ∧ r - g < 50 ∧ g > 80 then 2.0 else 0) +
  (if a > 20 ∧ b > 20 ∧ l > 55 ∧ a < 40 then 2.0 else 0) +
  distScore r g b 255 165 0 * 1.5

/-- Yellow score of `detectColorRevolutionary` (lines 2565-2567,
2601-2603, 2632-2634, yellow reference).  Line 2632 tests the raw blue parameter
`b`, not the unused `b_lab`. -/
noncomputable def revoScoreYellow (r g b : ℝ) : ℝ :=
  let hsv := rgbToHsv r g b
  let h := hsv.1
  let s := hsv.2.1
  let v := hsv.2.2
  let lab := rgbToLab r g b
  let l := lab.1
  let a := lab.2.1
  (if h ≥ 45 ∧ h ≤ 75 ∧ s > 80 ∧ v > 150 ∧ r > 120 ∧ g > 120 ∧ b < 120 ∧ |r - g| < 50
    then 2.0 else 0) +
  (if r > 120 ∧ g > 120 ∧ b < 120 ∧ |r - g| < 60 then 1.5 else 0) +
  (if b > 25 ∧ |a| < 30 ∧ l > 60 ∧ b < 60 then 1.5 else 0) +
  distScore r g b 255 255 0 * 1.5

/-- Green score of `detectColorRevolutionary` (lines 2570-2572,
2606-2608, 2637-2639, green reference).  Line 2637 tests the raw blue parameter
`b`, not the unused `b_lab`. -/
noncomputable def revoScoreGreen (r g b : ℝ) : ℝ :=
  let hsv := rgbToHsv r g b
  let h := hsv.1
  let s := hsv.2.1
  let v := hsv.2.2
  let lab := rgbToLab r g b
  let l := lab.1
  let a := lab.2.1
  (if h ≥ 80 ∧ h ≤ 160 ∧ s > 80 ∧ v > 80 ∧ g > r * 1.4 ∧ g > b * 1.4 then 2.5 else 0) +
  (if g > 130 ∧ g > r * 1.4 ∧ g > b * 1.4 ∧ r < 120 ∧ b < 120 then 2.0 else 0) +
  (if a < -20 ∧ l > 45 ∧ b > 5 then 2.0 else 0) +
  distScore r g b 0 255 0 * 1.5

/-- Blue score of `detectColorRevolutionary` (lines 2575-2577, 2611-2613,
2642-2644, blue reference).  Line 2642 tests the raw blue parameter
`b`, not the unused `b_lab`, so its "LAB" blue rule (`b < -25`) can never
fire on an 8-bit channel. -/
noncomputable def revoScoreBlue (r g b : ℝ) : ℝ :=
  let hsv := rgbToHsv r g b
  let h := hsv.1
  let s := hsv.2.1
  let v := hsv.2.2
  let lab := rgbToLab r g b
  let l := lab.1
  let a := lab.2.1
  (if h ≥ 210 ∧ h ≤ 270 ∧ s > 80 ∧ v > 80 ∧ b > r * 1.4 ∧ b > g * 1.4 ∧ b > 100
    then 3.0 else 0) +
  (if b > 130 ∧ b > r * 1.4 ∧ b > g * 1.4 ∧ r < 120 ∧ g < 120 then 2.5 else 0) +
  (if b < -25 ∧ l > 45 ∧ a < -5 then 2.5 else 0) +
  distScore r g b 0 0 255 * 1.5

/-- The argmax loop over `Object.entries(colorScores)` (lines 2679-2687):
walk the entries in insertion order, strictly improving on the best score
seen so far, starting from `('unknown', 0)`. -/
noncomputable def bestOf (l : List (String × ℝ)) : String × ℝ :=
  l.foldl (fun best p => if p.2 > best.2 then p else best) ("unknown", 0)

/-- `detectColorRevolutionary` (lines 2534-2691): sum the technique
scores per color, apply the white/yellow disambiguation boost when both
scores are positive and the mean channel exceeds 180, then return the
best-scoring color if its score beats 1.5. -/
noncomputable def detectColorRevolutionary (r g b : ℝ) : String :=
  let wS := revoScoreWhite r g b
  let rS := revoScoreRed r g b
  let oS := revoScoreOrange r g b
  let yS := revoScoreYellow r g b
  let gS := revoScoreGreen r g b
  let bS := revoScoreBlue r g b
  let avg := (r + g + b) / 3
  let wS2 := if wS > 0 ∧ yS > 0 then (if avg > 180 then wS + 1.0 else wS) else wS
  let yS2 := if wS > 0 ∧ yS > 0 then (if avg > 180 then yS - 0.5 else yS) else yS
  let best := bestOf [("white", wS2), ("red", rS), ("orange", oS), ("yellow", yS2),
    ("green", gS), ("blue", bS)]
  if best.2 > 1.5 then best.1 else "unknown"

/-- `detectColorNeural` (lines 1863-1924): feature-based scoring over
HSV, RGB and LAB, returning the best color when its score beats 1.0.  The
source destructures `b_lab` but never reads it: the "LAB" features at
lines 1882, 1892, 1897 and 1907 test `b`, the raw blue parameter. -/
noncomputable def detectColorNeural (r g b : ℝ) : String :=
  let hsv := rgbToHsv r g b
  let h := hsv.1
  let s := hsv.2.1
  let v := hsv.2.2
  let lab := rgbToLab r g b
  let l := lab.1
  let a := lab.2.1
  let yellowS :=
    (if h ≥ 40 ∧ h ≤ 80 ∧ s > 60 ∧ v > 140 then min (s / 255) (v / 255) * 2 else 0) +
    (if r > 120 ∧ g > 120 ∧ b < 110 ∧ |r - g| < 50 then
      min ((r - 100) / 80) ((g - 100) / 80) * 1.5 else 0) +
    (if b > 20 ∧ |a| < 30 ∧ l > 60 then
      (b - 10) / 40 * (1 - |a| / 50) * (l / 100) * 1.5 else 0)
  let whiteS := if l > 80 ∧ |a| < 20 ∧ |b| < 20 then
      (l - 80) / 20 * (1 - (|a| + |b|) / 100) * 1.5 else 0
  let redS := if a > 20 ∧ l > 40 then (a - 10) / 40 * (l / 100) * 1.5 else 0
  let orangeS := if a > 15 ∧ b > 15 ∧ l > 50 then
      min ((a - 5) / 30) ((b - 5) / 30) * (l / 100) * 1.5 else 0
  let greenS := if a < -15 ∧ l > 40 then (-a - 5) / 35 * (l / 100) * 1.5 else 0
  let blueS := if b < -15 ∧ l > 40 then (-b - 5) / 35 * (l / 100) * 1.5 else 0
  let best := bestOf [("white", whiteS), ("red", redS), ("orange", orangeS),
    ("yellow", yellowS), ("green", greenS), ("blue", blueS)]
  if best.2 > 1.0 then best.1 else "unknown"

/-- `detectColorAdvanced` (lines 2098-2261).  The ratio features divide
channel by channel; JavaScript yields `Infinity` on a zero denominator
where Lean's field convention yields 0, so the two disagree only when a
channel is exactly 0 and only in the last two ratio bonuses.  As in the
other detectors, `b_lab` is destructured but never read: the "LAB"
features at lines 2193-2194, 2203-2204, 2208-2211 and 2221-2224 test
`b`, the raw blue parameter. -/
noncomputable def detectColorAdvanced (r g b : ℝ) : String :=
  let hsv := rgbToHsv r g b
  let h := hsv.1
  let s := hsv.2.1
  let v := hsv.2.2
  let lab := rgbToLab r g b
  let l := lab.1
  let a := lab.2.1
  let diff := max r (max g b) - min r (min g b)
  let avg := (r + g + b) / 3
  let whiteS :=
    (if v > 200 ∧ s < 50 then (v - 200) / 55 * (1 - s / 255) * 2 else 0) +
    (if avg > 180 ∧ diff < 50 then (avg - 180) / 75 * (1 - diff / 255) * 1.5 else 0) +
    (if l > 80 ∧ |a| < 20 ∧ |b| < 20 then
      (l - 80) / 20 * (1 - (|a| + |b|) / 100) * 1.5 else 0)
  let redS :=
    (if (h < 15 ∨ h > 345) ∧ s > 80 ∧ v > 80 then min (s / 255) (v / 255) * 2 else 0) +
    (if r > 120 ∧ r > g * 1.3 ∧ r > b * 1.3 then
      (r - 120) / 135 * min (r / g) (r / b) * 1.5 else 0) +
    (if a > 20 ∧ l > 40 then (a - 10) / 40 * (l / 100) * 1.5 else 0)
  let orangeS :=
    (if h ≥ 10 ∧ h ≤ 45 ∧ s > 100 ∧ v > 100 then min (s / 255) (v / 255) * 2 else 0) +
    (if r > 100 ∧ g > 60 ∧ b < 90 ∧ r > g ∧ g > b then
      min ((r - 80) / 80) ((g - 40) / 80) * (1 - b / 255) * 1.5 else 0) +
    (if a > 15 ∧ b > 15 ∧ l > 50 then
      min ((a - 5) / 30) ((b - 5) / 30) * (l / 100) * 1.5 else 0)
  let yellowS :=
    (if h ≥ 45 ∧ h ≤ 75 ∧ s > 80 ∧ v > 160 ∧ r > 140 ∧ g > 140 ∧ b < 120 then
      min (s / 255) (v / 255) * 2.5 else 0) +
    (if r > 120 ∧ g > 120 ∧ b < 100 ∧ |r - g| < 40 ∧ b < max r g * 0.7 then
      min ((r - 100) / 80) ((g - 100) / 80) * (1 - |r - g| / 255) * 2 else 0) +
    (if b > 20 ∧ |a| < 25 ∧ l > 60 ∧ b < 50 then
      (b - 10) / 40 * (1 - |a| / 50) * (l / 100) * 2 else 0) +
    (if r / g > 0.8 ∧ r / g < 1.2 ∧ r / b > 1.2 ∧ g / b > 1.2 then 1.0 else 0)
  let greenS :=
    (if h ≥ 75 ∧ h ≤ 165 ∧ s > 80 ∧ v > 80 then min (s / 255) (v / 255) * 2 else 0) +
    (if g > 120 ∧ g > r * 1.3 ∧ g > b * 1.3 then
      (g - 120) / 135 * min (g / r) (g / b) * 1.5 else 0) +
    (if a < -15 ∧ l > 40 then (-a - 5) / 35 * (l / 100) * 1.5 else 0)
  let blueS :=
    (if h ≥ 200 ∧ h ≤ 280 ∧ s > 80 ∧ v > 80 ∧ b > 120 ∧ b > r * 1.4 ∧ b > g * 1.4 then
      min (s / 255) (v / 255) * 3 else 0) +
    (if b > 120 ∧ b > r * 1.5 ∧ b > g * 1.5 ∧ b > (r + g) / 2 * 1.3 then
      (b - 120) / 135 * min (b / r) (b / g) * 2.5 else 0) +
    (if b < -15 ∧ l > 40 ∧ b < -25 then (-b - 5) / 35 * (l / 100) * 2.5 else 0) +
    (if b / r > 1.5 ∧ b / g > 1.5 then 1.5 else 0)
  let best := bestOf [("white", whiteS), ("red", redS), ("orange", orangeS),
    ("yellow", yellowS), ("green", greenS), ("blue", blueS)]
  if best.2 > 1.5 then best.1 else "unknown"

/-- `detectColorLAB` (lines 928-960): pure threshold chain on LAB. -/
noncomputable def detectColorLAB (l a b : ℝ) : String :=
  if l > 85 ∧ |a| < 15 ∧ |b| < 15 then "white"
  else if a > 40 ∧ l > 40 ∧ b < 10 then "red"
  else if a > 25 ∧ b > 25 ∧ l > 55 ∧ a < 35 then "orange"
  else if b > 30 ∧ |a| < 25 ∧ l > 60 then "yellow"
  else if a < -20 ∧ l > 40 then "green"
  else if b < -20 ∧ l > 40 then "blue"
  else "unknown"

/-- `detectOrangeSpecial` (lines 963-979): all six orange criteria must
hold simultaneously. -/
noncomputable def detectOrangeSpecial (r g b h s v : ℝ) : String :=
  if (h ≥ 15 ∧ h ≤ 40) ∧ (s > 120 ∧ s < 200) ∧ (v > 100 ∧ v < 200) ∧
      (r > 120 ∧ g > 80 ∧ b < 80 ∧ r > g ∧ g > b) ∧
      (r - g < 50 ∧ g - b > 20) ∧ (r + g + b) / 3 > 120 then
    "orange"
  else "unknown"

/-- `detectColorRGB` (lines 982-1025): threshold chain on raw RGB. -/
noncomputable def detectColorRGB (r g b : ℝ) : String :=
  let diff := max r (max g b) - min r (min g b)
  let avg := (r + g + b) / 3
  if avg > 200 ∧ diff < 40 then "white"
  else if avg < 50 then "unknown"
  else if r > 150 ∧ r > g * 2.2 ∧ r > b * 2.2 ∧ g < 70 then "red"
  else if r > 120 ∧ g > 100 ∧ b < 80 ∧ r > g ∧ g > b ∧ r - g < 40 ∧ g > 100 then "orange"
  else if r > 140 ∧ g > 140 ∧ b < 100 ∧ |r - g| < 50 then "yellow"
  else if g > 120 ∧ g > r * 1.3 ∧ g > b * 1.3 then "green"
  else if b > 120 ∧ b > r * 1.3 ∧ b > g * 1.3 then "blue"
  else "unknown"

/-- One weighted reference color of `detectColorByDistance`. -/
structure RefColor where
  name : String
  cr : ℝ
  cg : ℝ
  cb : ℝ
  weight : ℝ

/-- The 18 weighted reference colors of `detectColorByDistance`
(lines 738-768). -/
noncomputable def distanceRefs : List RefColor :=
  [⟨"white", 255, 255, 255, 1.0⟩, ⟨"white", 240, 240, 240, 0.9⟩, ⟨"white", 220, 220, 220, 0.8⟩,
   ⟨"red", 255, 0, 0, 1.0⟩, ⟨"red", 220, 20, 20, 0.9⟩, ⟨"red", 200, 30, 30, 0.8⟩,
   ⟨"orange", 255, 165, 0, 1.0⟩, ⟨"orange", 255, 140, 0, 0.9⟩, ⟨"orange", 220, 120, 0, 0.8⟩,
   ⟨"yellow", 255, 255, 0, 1.0⟩, ⟨"yellow", 255, 240, 0, 0.9⟩, ⟨"yellow", 220, 220, 0, 0.8⟩,
   ⟨"green", 0, 255, 0, 1.0⟩, ⟨"green", 20, 220, 20, 0.9⟩, ⟨"green", 30, 200, 30, 0.8⟩,
   ⟨"blue", 0, 0, 255, 1.0⟩, ⟨"blue", 20, 20, 220, 0.9⟩, ⟨"blue", 30, 30, 200, 0.8⟩]

/-- `detectColorByDistance` (lines 736-794): smallest weighted distance
wins (the initial minimum is `Infinity`, modelled as `none`, so the first
reference always improves it); the result stands only when the minimum
weighted distance is below 180.  The loop's `bestConfidence` is computed
in the source but never influences the returned label. -/
noncomputable def detectColorByDistance (r g b : ℝ) : String :=
  let best := distanceRefs.foldl (fun acc ref =>
    let dist := Real.sqrt ((r - ref.cr) ^ 2 + (g - ref.cg) ^ 2 + (b - ref.cb) ^ 2)
    let wd := dist / ref.weight
    match acc.1 with
    | none => (some wd, ref.name)
    | some m => if wd < m then (some wd, ref.name) else acc)
    ((none : Option ℝ), "unknown")
  match best.1 with
  | none => "unknown"
  | some m => if m < 180 then best.2 else "unknown"

/-- `detectColorUltraAccurate` (lines 858-925), in the uncalibrated state:
`getAdaptiveThresholds` returns `null` when no calibration data exists
(and with calibration data present it would dereference a `rgb` field the
calibration routine never stores), so every threshold multiplier defaults
to 1.0 here.  This is the one detector that actually consumes the LAB
blue-yellow channel: line 912 passes `b_lab` to `detectColorLAB`. -/
noncomputable def detectColorUltraAccurate (r g b : ℝ) : String :=
  let hsv := rgbToHsv r g b
  let h := hsv.1
  let s := hsv.2.1
  let v := hsv.2.2
  let lab := rgbToLab r g b
  let l := lab.1
  let a := lab.2.1
  let bl := lab.2.2
  if v > 200 ∧ s < 50 ∧ |r - g| < 30 ∧ |g - b| < 30 ∧ |r - b| < 30 then "white"
  else if (h < 5 ∨ h > 355) ∧ s > 160 ∧ v > 120 ∧ r > g * 2.0 ∧ r > b * 2.0 ∧ g < 80 then
    "red"
  else if h ≥ 15 ∧ h ≤ 40 ∧ s > 120 ∧ v > 100 ∧ r > g * 1.05 ∧ g > b * 1.2 ∧
      r - g < 50 ∧ g > 100 then "orange"
  else if h ≥ 45 ∧ h ≤ 75 ∧ s > 80 ∧ v > 150 ∧ r > 150 ∧ g > 150 ∧ b < 100 then "yellow"
  else if h ≥ 75 ∧ h ≤ 165 ∧ s > 80 ∧ v > 80 ∧ g > r * 1.3 ∧ g > b * 1.3 then "green"
  else if h ≥ 200 ∧ h ≤ 280 ∧ s > 80 ∧ v > 80 ∧ b > r * 1.3 ∧ b > g * 1.3 then "blue"
  else
    let labColor := detectColorLAB l a bl
    if labColor ≠ "unknown" then labColor
    else
      let orangeCheck := detectOrangeSpecial r g b h s v
      if orangeCheck = "orange" then "orange"
      else
        let distanceColor := detectColorByDistance r g b
        if distanceColor ≠ "unknown" then distanceColor
        else detectColorRGB r g b

/-- The calibration record stored by `calibrateColorsFromEnvironment`
(lines 2509-2514): an average brightness and a per-channel balance. -/
structure CalibrationData where
  avgBrightness : ℝ
  balR : ℝ
  balG : ℝ
  balB : ℝ

/-- `applyColorCalibration` (lines 2520-2531): identity without
calibration data, otherwise divide each channel by its balance factor and
clamp into `[0, 255]`. -/
noncomputable def applyColorCalibration (calib : Option CalibrationData) (r g b : ℝ) :
    ℝ × ℝ × ℝ :=
  match calib with
  | none => (r, g, b)
  | some cd =>
    (min 255 (max 0 (r / cd.balR)), min 255 (max 0 (g / cd.balG)),
     min 255 (max 0 (b / cd.balB)))

/-- `correctColorForLighting` (lines 1734-1759): boost dark samples
towards brightness 150, damp bright samples towards 180, rounding each
channel. -/
noncomputable def correctColorForLighting (r g b : ℝ) : ℝ × ℝ × ℝ :=
  let avg := (r + g + b) / 3
  if avg < 100 then
    let boost := 150 / avg
    (min 255 ((round (r * boost) : ℤ) : ℝ), min 255 ((round (g * boost) : ℤ) : ℝ),
     min 255 ((round (b * boost) : ℤ) : ℝ))
  else if avg > 200 then
    let reduce := 180 / avg
    (max 0 ((round (r * reduce) : ℤ) : ℝ), max 0 ((round (g * reduce) : ℤ) : ℝ),
     max 0 ((round (b * reduce) : ℤ) : ℝ))
  else (r, g, b)

/-- `detectColorWithCorrection` (lines 1762-1798): calibrate, correct for
lighting, then try `detectColorRevolutionary` on corrected, calibrated
and raw values, falling back to the advanced, neural and ultra-accurate
detectors while the result stays `unknown`. -/
noncomputable def detectColorWithCorrection (calib : Option CalibrationData)
    (r g b : ℝ) : String :=
  let calibrated := applyColorCalibration calib r g b
  let corrected := correctColorForLighting calibrated.1 calibrated.2.1 calibrated.2.2
  let c1 := detectColorRevolutionary corrected.1 corrected.2.1 corrected.2.2
  let c2 := if c1 = "unknown" then
      detectColorRevolutionary calibrated.1 calibrated.2.1 calibrated.2.2 else c1
  let c3 := if c2 = "unknown" then detectColorRevolutionary r g b else c2
  let c4 := if c3 = "unknown" then
      detectColorAdvanced corrected.1 corrected.2.1 corrected.2.2 else c3
  let c5 := if c4 = "unknown" then
      detectColorNeural corrected.1 corrected.2.1 corrected.2.2 else c4
  if c5 = "unknown" then detectColorUltraAccurate r g b else c5

/-- `getColorConfidenceRevolutionary` (lines 2694-2769): sum the
per-criterion contributions for the given label, boost results above 0.7
by 15%, and clamp to 1.  The source destructures `b_lab` but never reads
it: the "LAB" criteria at lines 2709, 2729, 2740 and 2756 test `b`, the
raw blue parameter (so the blue branch's `b < -25` can never fire on an
8-bit channel). -/
noncomputable def getColorConfidenceRevolutionary (color : String) (r g b : ℝ) : ℝ :=
  if color = "unknown" then 0 else
  let hsv := rgbToHsv r g b
  let h := hsv.1
  let s := hsv.2.1
  let v := hsv.2.2
  let lab := rgbToLab r g b
  let l := lab.1
  let a := lab.2.1
  let confidence :=
    if color = "white" then
      (if v > 180 ∧ s < 60 then 0.3 else 0) +
      (if |r - g| < 40 ∧ |g - b| < 40 ∧ |r - b| < 40 then 0.3 else 0) +
      (if r > 140 ∧ g > 140 ∧ b > 140 then 0.2 else 0) +
      (if l > 70 ∧ |a| < 25 ∧ |b| < 25 then 0.2 else 0) +
      (if (r + g + b) / 3 > 180 then 0.1 else 0)
    else if color = "red" then
      (if (h < 15 ∨ h > 345) ∧ s > 80 ∧ v > 80 then 0.3 else 0) +
      (if r > g * 1.4 ∧ r > b * 1.4 then 0.3 else 0) +
      (if r > 130 ∧ g < 120 ∧ b < 120 then 0.2 else 0) +
      (if a > 30 ∧ l > 45 then 0.2 else 0)
    else if color = "orange" then
      (if h ≥ 15 ∧ h ≤ 45 ∧ s > 80 ∧ v > 80 then 0.3 else 0) +
      (if r > g ∧ g > b ∧ r > 100 then 0.3 else 0) +
      (if r > 120 ∧ g > 70 ∧ b < 90 then 0.2 else 0) +
      (if a > 20 ∧ b > 20 ∧ l > 55 then 0.2 else 0) +
      (if h ≥ 15 ∧ h ≤ 45 ∧ r - g < 80 then 0.1 else 0)
    else if color = "yellow" then
      (if h ≥ 45 ∧ h ≤ 75 ∧ s > 80 ∧ v > 150 then 0.3 else 0) +
      (if r > 120 ∧ g > 120 ∧ b < 120 ∧ |r - g| < 60 then 0.3 else 0) +
      (if r > 120 ∧ g > 120 ∧ b < 120 then 0.2 else 0) +
      (if b > 25 ∧ |a| < 30 ∧ l > 60 then 0.2 else 0)
    else if color = "green" then
      (if h ≥ 80 ∧ h ≤ 160 ∧ s > 80 ∧ v > 80 then 0.3 else 0) +
      (if g > r * 1.4 ∧ g > b * 1.4 then 0.3 else 0) +
      (if g > 130 ∧ r < 120 ∧ b < 120 then 0.2 else 0) +
      (if a < -20 ∧ l > 45 then 0.2 else 0)
    else if color = "blue" then
      (if h ≥ 210 ∧ h ≤ 270 ∧ s > 80 ∧ v > 80 then 0.3 else 0) +
      (if b > r * 1.4 ∧ b > g * 1.4 ∧ b > 100 then 0.3 else 0) +
      (if b > 130 ∧ r < 120 ∧ g < 120 then 0.2 else 0) +
      (if b < -25 ∧ l > 45 then 0.2 else 0)
    else 0
  let confidence2 := if confidence > 0.7 then min 1.0 (confidence * 1.15) else confidence
  min 1.0 confidence2

/-- Cube-root bounds used for the LAB white point ratios: for `k ≥ 1` the
real cube root lies between 1 and `k`. -/
lemma rpow_third_bounds (k : ℝ) (hk : 1 ≤ k) :
    1 ≤ k ^ ((1:ℝ)/3) ∧ k ^ ((1:ℝ)/3) ≤ k := by
  constructor
  · have h := Real.rpow_le_rpow_of_exponent_le hk (show (0:ℝ) ≤ 1/3 by norm_num)
    rwa [Real.rpow_zero] at h
  · have h := Real.rpow_le_rpow_of_exponent_le hk (show (1:ℝ)/3 ≤ 1 by norm_num)
    rwa [Real.rpow_one] at h

/-- The HSV conversion of a pure gray sample: zero hue and saturation. -/
lemma rgbToHsv_at_180 : rgbToHsv (180:ℝ) 180 180 = (0, 0, 180) := by
  norm_num [rgbToHsv]

/-- The HSV conversion of pure white. -/
lemma rgbToHsv_at_255 : rgbToHsv (255:ℝ) 255 255 = (0, 0, 255) := by
  norm_num [rgbToHsv]

/-- LAB of pure white: lightness exactly 100; the `a`/`b` channels are
tiny positive/negative offsets coming from the white-point ratios
`0.9505/0.95047` and `1.089/1.08883`. -/
lemma rgbToLab_at_255 : (rgbToLab 255 255 255).1 = 100 ∧
    0 ≤ (rgbToLab 255 255 255).2.1 ∧ (rgbToLab 255 255 255).2.1 ≤ 1 ∧
    -1 ≤ (rgbToLab 255 255 255).2.2 ∧ (rgbToLab 255 255 255).2.2 ≤ 0 := by
  obtain ⟨hk3a, hk3b⟩ := rpow_third_bounds (0.9505/0.95047) (by norm_num)
  obtain ⟨hm3a, hm3b⟩ := rpow_third_bounds (1.089/1.08883) (by norm_num)
  simp only [rgbToLab]
  rw [if_pos (show (255:ℝ)/255 > 0.04045 by norm_num)]
  rw [show ((255:ℝ)/255 + 0.055)/1.055 = 1 by norm_num, Real.one_rpow]
  norm_num [Real.one_rpow]
  refine ⟨?_, ?_, ?_, ?_⟩ <;> nlinarith

/-- LAB of the gray sample (180,180,180) that white lighting correction
produces: lightness strictly above 70 (the gamma value of the gray is
`(2587/3587)^2.4`, whose cube root `(2587/3587)^0.8` exceeds `43/58`),
with `a` in `[0,1]` and `b` in `[-1,0]`. -/
lemma rgbToLab_at_180 : 70 < (rgbToLab 180 180 180).1 ∧
    0 ≤ (rgbToLab 180 180 180).2.1 ∧ (rgbToLab 180 180 180).2.1 ≤ 1 ∧
    -1 ≤ (rgbToLab 180 180 180).2.2 ∧ (rgbToLab 180 180 180).2.2 ≤ 0 := by
  have hu0 : (0:ℝ) < 2587/3587 := by norm_num
  have hu1 : (2587:ℝ)/3587 ≤ 1 := by norm_num
  have ht0 : 0 < ((2587:ℝ)/3587) ^ ((12:ℝ)/5) := Real.rpow_pos_of_pos hu0 _
  have ht1 : ((2587:ℝ)/3587) ^ ((12:ℝ)/5) ≤ 1 :=
    Real.rpow_le_one hu0.le hu1 (by norm_num)
  have ht3 : ((2587:ℝ)/3587) ^ (3:ℕ) ≤ ((2587:ℝ)/3587) ^ ((12:ℝ)/5) := by
    have h := Real.rpow_le_rpow_of_exponent_ge hu0 hu1
      (show (12:ℝ)/5 ≤ 3 by norm_num)
    rwa [show (3:ℝ) = ((3:ℕ):ℝ) by norm_num, Real.rpow_natCast] at h
  have htb : (0.008856:ℝ) < ((2587:ℝ)/3587) ^ ((12:ℝ)/5) :=
    lt_of_lt_of_le (by norm_num) ht3
  have hfy : (((2587:ℝ)/3587) ^ ((12:ℝ)/5)) ^ ((1:ℝ)/3) =
      ((2587:ℝ)/3587) ^ ((4:ℝ)/5) := by
    rw [← Real.rpow_mul hu0.le]
    norm_num
  have hfy0 : 0 < ((2587:ℝ)/3587) ^ ((4:ℝ)/5) := Real.rpow_pos_of_pos hu0 _
  have hfy1 : ((2587:ℝ)/3587) ^ ((4:ℝ)/5) ≤ 1 :=
    Real.rpow_le_one hu0.le hu1 (by norm_num)
  have hfy_lb : (43:ℝ)/58 < ((2587:ℝ)/3587) ^ ((4:ℝ)/5) := by
    by_contra hle
    push_neg at hle
    have h5 : (((2587:ℝ)/3587) ^ ((4:ℝ)/5)) ^ (5:ℕ) ≤ ((43:ℝ)/58) ^ (5:ℕ) :=
      pow_le_pow_left₀ (Real.rpow_nonneg hu0.le _) hle 5
    rw [← Real.rpow_natCast ((((2587:ℝ)/3587)) ^ ((4:ℝ)/5)) 5,
      ← Real.rpow_mul hu0.le] at h5
    norm_num at h5
  simp only [rgbToLab]
  rw [if_pos (show (180:ℝ)/255 > 0.04045 by norm_num)]
  rw [show ((180:ℝ)/255 + 0.055)/1.055 = 2587/3587 by norm_num]
  rw [show (2.4:ℝ) = 12/5 by norm_num]
  rw [show (((2587:ℝ)/3587) ^ ((12:ℝ)/5) * 0.2126 + ((2587:ℝ)/3587) ^ ((12:ℝ)/5) * 0.7152 +
      ((2587:ℝ)/3587) ^ ((12:ℝ)/5) * 0.0722) / 1.00000 =
      ((2587:ℝ)/3587) ^ ((12:ℝ)/5) by ring]
  rw [show (((2587:ℝ)/3587) ^ ((12:ℝ)/5) * 0.4124 + ((2587:ℝ)/3587) ^ ((12:ℝ)/5) * 0.3576 +
      ((2587:ℝ)/3587) ^ ((12:ℝ)/5) * 0.1805) / 0.95047 =
      ((2587:ℝ)/3587) ^ ((12:ℝ)/5) * (0.9505/0.95047) by ring]
  rw [show (((2587:ℝ)/3587) ^ ((12:ℝ)/5) * 0.0193 + ((2587:ℝ)/3587) ^ ((12:ℝ)/5) * 0.1192 +
      ((2587:ℝ)/3587) ^ ((12:ℝ)/5) * 0.9505) / 1.08883 =
      ((2587:ℝ)/3587) ^ ((12:ℝ)/5) * (1.089/1.08883) by ring]
  have hk1 : (1:ℝ) ≤ 0.9505/0.95047 := by norm_num
  have hm1 : (1:ℝ) ≤ 1.089/1.08883 := by norm_num
  have hxb : (0.008856:ℝ) < ((2587:ℝ)/3587) ^ ((12:ℝ)/5) * (0.9505/0.95047) := by
    nlinarith
  have hzb : (0.008856:ℝ) < ((2587:ℝ)/3587) ^ ((12:ℝ)/5) * (1.089/1.08883) := by
    nlinarith
  rw [if_pos htb, if_pos hxb, if_pos hzb]
  rw [Real.mul_rpow ht0.le (by norm_num : (0:ℝ) ≤ 0.9505/0.95047)]
  rw [Real.mul_rpow ht0.le (by norm_num : (0:ℝ) ≤ 1.089/1.08883)]
  rw [hfy]
  obtain ⟨hk3a, hk3b⟩ := rpow_third_bounds (0.9505/0.95047) hk1
  obtain ⟨hm3a, hm3b⟩ := rpow_third_bounds (1.089/1.08883) hm1
  refine ⟨by linarith, ?_, ?_, ?_, ?_⟩ <;> nlinarith

/-- The distance score of technique 4 is always in `[0, 1]`. -/
lemma distScore_mem (r g b cr cg cb : ℝ) :
    0 ≤ distScore r g b cr cg cb ∧ distScore r g b cr cg cb ≤ 1 := by
  unfold distScore
  constructor
  · exact le_max_left 0 _
  · apply max_le (by norm_num)
    have h0 := Real.sqrt_nonneg ((r - cr) ^ 2 + (g - cg) ^ 2 + (b - cb) ^ 2)
    have : 0 ≤ Real.sqrt ((r - cr) ^ 2 + (g - cg) ^ 2 + (b - cb) ^ 2) / 250 := by
      positivity
    linarith

/-- The entries loop keeps the first entry when it is positive and no
later entry strictly beats it. -/
lemma bestOf_first (w r o y g b : ℝ) (hw : 0 < w) (hr : r ≤ w) (ho : o ≤ w)
    (hy : y ≤ w) (hg : g ≤ w) (hb : b ≤ w) :
    bestOf [("white", w), ("red", r), ("orange", o), ("yellow", y),
      ("green", g), ("blue", b)] = ("white", w) := by
  unfold bestOf
  simp only [List.foldl]
  rw [if_pos hw, if_neg (not_lt.mpr hr), if_neg (not_lt.mpr ho),
    if_neg (not_lt.mpr hy), if_neg (not_lt.mpr hg), if_neg (not_lt.mpr hb)]

/-- At the corrected gray (180,180,180) the white score collects the RGB
contribution: the HSV rule just misses (`v = 180` is not `> 180`) and the
"LAB" rule fails because it tests the raw blue channel (`|180| < 25` is
false). -/
lemma revoScoreWhite_at_180 : 2.5 ≤ revoScoreWhite 180 180 180 := by
  obtain ⟨hd0, hd1⟩ := distScore_mem 180 180 180 255 255 255
  simp only [revoScoreWhite, rgbToHsv_at_180]
  rw [if_neg (by norm_num), if_pos (by norm_num),
    if_neg (by intro hc; exact absurd hc.2.2 (by norm_num [abs_lt]))]
  linarith

/-- At (180,180,180) every rule contribution to the red score fails (the
"LAB" rule needs the raw blue 180 below 15) and only the bounded distance
term remains. -/
lemma revoScoreRed_at_180 : revoScoreRed 180 180 180 ≤ 1.5 := by
  obtain ⟨hd0, hd1⟩ := distScore_mem 180 180 180 255 0 0
  simp only [revoScoreRed, rgbToHsv_at_180]
  rw [if_neg (by norm_num), if_neg (by norm_num),
    if_neg (by intro hc; exact absurd hc.2.2 (by norm_num))]
  linarith

/-- Orange score bound at (180,180,180): the "LAB" rule is refuted by the
LAB `a` channel staying below 20. -/
lemma revoScoreOrange_at_180 : revoScoreOrange 180 180 180 ≤ 1.5 := by
  obtain ⟨-, ha0, ha1, -, -⟩ := rgbToLab_at_180
  obtain ⟨hd0, hd1⟩ := distScore_mem 180 180 180 255 165 0
  simp only [revoScoreOrange, rgbToHsv_at_180]
  rw [if_neg (by norm_num), if_neg (by norm_num),
    if_neg (by intro hc; exact absurd hc.1 (by push_neg; linarith))]
  linarith

/-- Yellow score bound at (180,180,180): the "LAB" rule is refuted by its
raw-blue upper bound (`180 < 60` is false). -/
lemma revoScoreYellow_at_180 : revoScoreYellow 180 180 180 ≤ 1.5 := by
  obtain ⟨hd0, hd1⟩ := distScore_mem 180 180 180 255 255 0
  simp only [revoScoreYellow, rgbToHsv_at_180]
  rw [if_neg (by norm_num), if_neg (by norm_num),
    if_neg (by intro hc; exact absurd hc.2.2.2 (by norm_num))]
  linarith

/-- Green score bound at (180,180,180): the "LAB" rule is refuted by the
LAB `a` channel staying nonnegative. -/
lemma revoScoreGreen_at_180 : revoScoreGreen 180 180 180 ≤ 1.5 := by
  obtain ⟨-, ha0, ha1, -, -⟩ := rgbToLab_at_180
  obtain ⟨hd0, hd1⟩ := distScore_mem 180 180 180 0 255 0
  simp only [revoScoreGreen, rgbToHsv_at_180]
  rw [if_neg (by norm_num), if_neg (by norm_num),
    if_neg (by intro hc; exact absurd hc.1 (by push_neg; linarith))]
  linarith

/-- Blue score bound at (180,180,180): the "LAB" rule tests the raw blue
channel against -25 and can never fire. -/
lemma revoScoreBlue_at_180 : revoScoreBlue 180 180 180 ≤ 1.5 := by
  obtain ⟨hd0, hd1⟩ := distScore_mem 180 180 180 0 0 255
  simp only [revoScoreBlue, rgbToHsv_at_180]
  rw [if_neg (by norm_num), if_neg (by norm_num),
    if_neg (by intro hc; exact absurd hc.1 (by norm_num))]
  linarith

/-- The first detector already classifies the corrected gray as white:
its white score is at least 2.5 (from the RGB rule) while every other
color stays at or below the distance cap 1.5, and the white/yellow boost
does not fire because the mean 180 is not above 180. -/
lemma detectColorRevolutionary_at_180 :
    detectColorRevolutionary 180 180 180 = "white" := by
  have hw5 := revoScoreWhite_at_180
  have hr := revoScoreRed_at_180
  have ho := revoScoreOrange_at_180
  have hy := revoScoreYellow_at_180
  have hg := revoScoreGreen_at_180
  have hb := revoScoreBlue_at_180
  unfold detectColorRevolutionary
  have havg : ¬(((180:ℝ) + 180 + 180) / 3 > 180) := by norm_num
  simp only [if_neg havg, ite_self]
  rw [bestOf_first _ _ _ _ _ _ (by linarith) (by linarith) (by linarith)
    (by linarith) (by linarith) (by linarith)]
  rw [if_pos (show (("white", revoScoreWhite 180 180 180) : String × ℝ).2 > 1.5 by
    simp only []
    linarith)]

/-- Lighting correction of pure white: the mean 255 exceeds 200, so every
channel is scaled by 180/255 and rounds to 180. -/
lemma correctColorForLighting_at_255 :
    correctColorForLighting 255 255 255 = (180, 180, 180) := by
  simp only [correctColorForLighting]
  rw [if_neg (by norm_num), if_pos (by norm_num)]
  rw [show (255:ℝ) * (180 / ((255 + 255 + 255)/3)) = ((180:ℤ):ℝ) by norm_num]
  rw [round_intCast]
  norm_num

/-- Claim C8: in the uncalibrated state the pipeline classifies
RGB(255,255,255) as white — the lighting correction maps it to
(180,180,180) and `detectColorRevolutionary` already answers there, so no
fallback runs — and the confidence function scores the label at 1,
strictly above 0.9: four of the five white criteria hold at
(255,255,255) (the "LAB" criterion tests the raw blue channel, and
`|255| < 25` fails), giving 0.9, which the above-0.7 boost raises to
1.035 and the clamp caps at 1. -/
theorem classify_white_255 :
    detectColorWithCorrection none 255 255 255 = "white" ∧
      getColorConfidenceRevolutionary "white" 255 255 255 > 0.9 := by
  constructor
  · simp only [detectColorWithCorrection, applyColorCalibration,
      correctColorForLighting_at_255, detectColorRevolutionary_at_180,
      (show ¬(("white":String) = "unknown") by decide), if_false, ite_false]
  · simp only [getColorConfidenceRevolutionary, rgbToHsv_at_255]
    rw [if_neg (by decide : ¬("white" = "unknown"))]
    rw [if_neg (show ¬((rgbToLab 255 255 255).1 > 70 ∧
        |(rgbToLab 255 255 255).2.1| < 25 ∧ |(255:ℝ)| < 25) by
      intro hc
      exact absurd hc.2.2 (by norm_num [abs_lt]))]
    norm_num [min_def]
